import Mathlib

/-!
Verification of `serve.py`: a no-cache local development HTTP file server.

The repository consists of a single handler class `NoCacheHandler` that
subclasses the generic static-file request handler and overrides the
header-finalization hook `end_headers` to buffer three extra no-cache
headers before delegating to the base finalizer, plus a main block that
binds an HTTP server on `('127.0.0.1', 3000)`, prints one startup line and
enters `serve_forever`.

The embedding models the header buffer / output stream mechanics of the
handler (`send_header` appends a line to an internal buffer;
`end_headers` appends the blank line and flushes the buffer to the
socket), the override from `serve.py`, and — since the generic
static-file responder itself is library code not contained in this
repository — a spec-modelled description of the base response
computation.
-/

/-- One line of an HTTP/1.x response wire image: the status line, a
header line, the blank line terminating the header block, or body bytes
(bytes are represented as a `String`). -/
inductive WireItem
  | statusLine (code : Nat) (message : String)
  | headerLine (keyword value : String)
  | blankLine
  | bodyBytes (b : String)
deriving DecidableEq, Repr

/-- The per-response output state of the base HTTP request handler: the
internal buffer of header lines not yet flushed, and the lines already
written to the client socket. -/
structure HandlerWire where
  headers_buffer : List WireItem
  wfile : List WireItem
deriving DecidableEq, Repr

/-- The base handler's `send_header ( keyword, value)`: buffers one header
line; it is written to the socket only when the headers are flushed. -/
def send_header (s : HandlerWire) (keyword value : String) : HandlerWire :=
  { s with headers_buffer := s.headers_buffer ++ [WireItem.headerLine keyword value] }

/-- The base handler's `send_response_only`: buffers the status line. -/
def send_response_only (s : HandlerWire) (code : Nat) (message : String) : HandlerWire :=
  { s with headers_buffer := s.headers_buffer ++ [WireItem.statusLine code message] }

/-- The base handler's `flush_headers`: writes the buffered lines to the
socket and empties the buffer. -/
def flush_headers (s : HandlerWire) : HandlerWire :=
  { headers_buffer := [], wfile := s.wfile ++ s.headers_buffer }

/-- The base handler's `end_headers`: buffers the blank line that
terminates the header block and flushes the buffer. -/
def base_end_headers (s : HandlerWire) : HandlerWire :=
  flush_headers { s with headers_buffer := s.headers_buffer ++ [WireItem.blankLine] }

/-- `NoCacheHandler.end_headers` from `serve.py` lines 5-9: buffer the
three no-cache headers, then delegate to the base `end_headers`. -/
def NoCacheHandler.end_headers (s : HandlerWire) : HandlerWire :=
  base_end_headers
    (send_header
      (send_header
        (send_header s "Cache-Control" "no-cache, no-store, must-revalidate")
        "Pragma" "no-cache")
      "Expires" "0")

/-- The three header lines that `NoCacheHandler.end_headers` injects, in
the order the source sends them. -/
def noCacheItems : List WireItem :=
  [WireItem.headerLine "Cache-Control" "no-cache, no-store, must-revalidate",
   WireItem.headerLine "Pragma" "no-cache",
   WireItem.headerLine "Expires" "0"]

/-- An incoming HTTP request: method and path (request headers play no
role in the behavior verified here). -/
structure Request where
  method : String
  path : String
deriving DecidableEq, Repr

/-- A node of the document-root filesystem as seen by the responder: a
regular file (with a readability flag covering permission or I/O errors,
a last-modified stamp and its exact byte contents), or a directory (with
an optional index file and a generated listing). -/
inductive FsNode
  | file (readable : Bool) (mtime : String) (contents : String)
  | dir (index : Option String) (listing : String)
deriving DecidableEq, Repr

/-- The document-root tree, as an association of resolved paths to
nodes. -/
abbrev Fs := List (String × FsNode)

/-- Resolve a request path against the document root. -/
def lookupPath : Fs → String → Option FsNode
  | [], _ => none
  | (q, n) :: rest, p => if q = p then some n else lookupPath rest p

/-- Content type inferred from the file extension, as the base responder
does. -/
def guessContentType (path : String) : String :=
  if path.endsWith ".html" then "text/html"
  else if path.endsWith ".css" then "text/css"
  else if path.endsWith ".js" then "text/javascript"
  else "application/octet-stream"

/-- Minimal error page body for an error status. -/
def errorBody (code : Nat) (message : String) : String :=
  "Error response: " ++ toString code ++ " " ++ message

/-- Headers the base handler sends on every response before the
content-specific ones. The `Date` value is a placeholder for the
wall-clock date, which does not affect any verified property. -/
def stdHeaders : List (String × String) :=
  [("Server", "SimpleHTTP BaseHTTP"), ("Date", "now")]

/-- A response as computed by the base responder before header
finalization: status code and message, the headers it sends, and the body
bytes. -/
structure BaseResponse where
  code : Nat
  message : String
  headers : List (String × String)
  body : String
deriving DecidableEq, Repr

/-- Modelled from the spec: the generic static-file responder that
`NoCacheHandler` inherits from; its code is library code, not part of
this repository. A GET or HEAD request resolves its path against the
document root: a readable regular file is served with status 200, a
content type inferred from the extension, and its exact contents; a
directory is served through its index file when present and otherwise
through a generated listing; a path resolving to nothing yields a
not-found (404) response with a minimal error body; a filesystem read
error (permission denied, I/O error while streaming) surfaces as a
server-error (500) status with no retry. Any other method falls through
to the base responder's default rejection (501 Unsupported method). A
HEAD response carries no body. -/
def baseResponse (fs : Fs) (req : Request) : BaseResponse :=
  if req.method = "GET" ∨ req.method = "HEAD" then
    match lookupPath fs req.path with
    | some (FsNode.file true mtime contents) =>
        { code := 200, message := "OK",
          headers := stdHeaders ++
            [("Content-type", guessContentType req.path),
             ("Content-Length", toString contents.length),
             ("Last-Modified", mtime)],
          body := if req.method = "HEAD" then "" else contents }
    | some (FsNode.file false _ _) =>
        { code := 500, message := "Internal Server Error",
          headers := stdHeaders ++
            [("Content-type", "text/html"),
             ("Content-Length",
              toString (errorBody 500 "Internal Server Error").length)],
          body := if req.method = "HEAD" then ""
                  else errorBody 500 "Internal Server Error" }
    | some (FsNode.dir (some idx) _) =>
        { code := 200, message := "OK",
          headers := stdHeaders ++
            [("Content-type", "text/html"),
             ("Content-Length", toString idx.length)],
          body := if req.method = "HEAD" then "" else idx }
    | some (FsNode.dir none listing) =>
        { code := 200, message := "OK",
          headers := stdHeaders ++
            [("Content-type", "text/html"),
             ("Content-Length", toString listing.length)],
          body := if req.method = "HEAD" then "" else listing }
    | none =>
        { code := 404, message := "Not Found",
          headers := stdHeaders ++
            [("Content-type", "text/html"),
             ("Content-Length", toString (errorBody 404 "Not Found").length)],
          body := if req.method = "HEAD" then "" else errorBody 404 "Not Found" }
  else
    { code := 501, message := "Unsupported method",
      headers := stdHeaders ++
        [("Content-type", "text/html"),
         ("Content-Length", toString (errorBody 501 "Unsupported method").length)],
      body := errorBody 501 "Unsupported method" }

/-- Emission of a computed response through `NoCacheHandler`: buffer the
status line, buffer each base header, finalize the headers through the
overridden `end_headers` (dynamic dispatch reaches the subclass
override), then write the body bytes to the socket. -/
def emitResponse (r : BaseResponse) : HandlerWire :=
  let s1 := send_response_only { headers_buffer := [], wfile := [] } r.code r.message
  let s2 := r.headers.foldl (fun t kv => send_header t kv.1 kv.2) s1
  let s3 := NoCacheHandler.end_headers s2
  { s3 with wfile := s3.wfile ++ [WireItem.bodyBytes r.body] }

/-- Emission of the same computed response through the unmodified base
handler (no override): used to state what the injection step changes. -/
def emitResponseBase (r : BaseResponse) : HandlerWire :=
  let s1 := send_response_only { headers_buffer := [], wfile := [] } r.code r.message
  let s2 := r.headers.foldl (fun t kv => send_header t kv.1 kv.2) s1
  let s3 := base_end_headers s2
  { s3 with wfile := s3.wfile ++ [WireItem.bodyBytes r.body] }

/-- The full request-to-wire behavior of the server on one request. -/
def handleRequest (fs : Fs) (req : Request) : HandlerWire :=
  emitResponse (baseResponse fs req)

/-- The request-to-wire behavior the base handler alone would have. -/
def handleRequestBase (fs : Fs) (req : Request) : HandlerWire :=
  emitResponseBase (baseResponse fs req)

/-- The status code on the wire: the code of the leading status line. -/
def wireStatus (s : HandlerWire) : Option Nat :=
  match s.wfile with
  | WireItem.statusLine c _ :: _ => some c
  | _ => none

/-- Number of status lines on the wire (one response sent exactly once,
no retry, means exactly one status line). -/
def countStatusLines : List WireItem → Nat
  | [] => 0
  | WireItem.statusLine _ _ :: rest => 1 + countStatusLines rest
  | _ :: rest => countStatusLines rest

/-- Occurrences of a wire item in a list. -/
def countItem (x : WireItem) : List WireItem → Nat
  | [] => 0
  | y :: rest => (if y = x then 1 else 0) + countItem x rest

/-- The host constant from `serve.py` line 12. -/
def serverHost : String := "127.0.0.1"

/-- The port constant from `serve.py` line 12. -/
def serverPort : Nat := 3000

/-- The startup line printed by `serve.py` line 13. -/
def startupLine : String := "Dev server: http://localhost:3000 (no-cache)"

/-- Whether a host string is a loopback address (an IPv4 address in the
127.0.0.0/8 block, the name localhost, or the IPv6 loopback). -/
def isLoopback (h : String) : Bool :=
  if h = "127.0.0.1" then true
  else if h = "localhost" then true
  else if h = "::1" then true
  else false

/-- An observable event of the main block: a socket bind attempt, a line
printed to standard output, entry into the serve loop, or process
termination. -/
inductive MainEvent
  | bindAttempt (host : String) (port : Nat)
  | printedLine (s : String)
  | enteredServeLoop
  | exitedProcess (nonzero : Bool)
deriving DecidableEq, Repr

/-- The main block of `serve.py` lines 11-14, as its trace of observable
events, parametrized by whether the socket bind succeeds. The
bind-failure branch is modelled from the spec (the runtime behavior of an
uncaught constructor exception is not code of this repository): a failed
bind terminates the process with a nonzero failure signal before anything
is printed, with no retry and no fallback port. On success the startup
line is printed and the serve loop is entered immediately. -/
def runMain (bindOk : Bool) : List MainEvent :=
  if bindOk then
    [MainEvent.bindAttempt serverHost serverPort,
     MainEvent.printedLine startupLine,
     MainEvent.enteredServeLoop]
  else
    [MainEvent.bindAttempt serverHost serverPort,
     MainEvent.exitedProcess true]

/-- Number of bind attempts in a main-block trace. -/
def countBindAttempts : List MainEvent → Nat
  | [] => 0
  | MainEvent.bindAttempt _ _ :: rest => 1 + countBindAttempts rest
  | _ :: rest => countBindAttempts rest

/-- Number of printed lines in a main-block trace. -/
def countPrintedLines : List MainEvent → Nat
  | [] => 0
  | MainEvent.printedLine _ :: rest => 1 + countPrintedLines rest
  | _ :: rest => countPrintedLines rest

/-- The running server's state: its listener configuration (host, port
and document root, fixed at startup), whether it is still accepting
connections, and a count of requests handled so far. -/
structure ServerState where
  host : String
  port : Nat
  root : String
  listening : Bool
  handled : Nat
deriving DecidableEq, Repr

/-- The server state right after `HTTPServer(('127.0.0.1', 3000),
NoCacheHandler)` binds, with the document root being the current working
directory of the process. -/
def initialServerState (cwd : String) : ServerState :=
  { host := serverHost, port := serverPort, root := cwd,
    listening := true, handled := 0 }

/-- Modelled from the spec: one iteration of `serve_forever` (library
code, not part of this repository): accept a connection, handle the
request against the current filesystem contents, and keep listening —
per-request errors are local to the request and never mutate the
configuration or terminate the loop. The only per-request state that
survives is the count of handled requests; no response data is
retained. -/
def serveStep (st : ServerState) (fs : Fs) (req : Request) :
    ServerState × HandlerWire :=
  ({ st with handled := st.handled + 1 }, handleRequest fs req)

/- Helper lemmas about the emission mechanics. -/

theorem foldl_send_header (hs : List (String × String)) (s : HandlerWire) :
    hs.foldl (fun t kv => send_header t kv.1 kv.2) s =
      { s with headers_buffer :=
          s.headers_buffer ++ hs.map (fun kv => WireItem.headerLine kv.1 kv.2) } := by
  induction hs generalizing s with
  | nil => simp
  | cons kv rest ih =>
      rw [List.foldl_cons, ih]
      simp [send_header, List.append_assoc]

theorem emitResponse_wfile (r : BaseResponse) :
    (emitResponse r).wfile =
      WireItem.statusLine r.code r.message ::
        (r.headers.map (fun kv => WireItem.headerLine kv.1 kv.2) ++
          noCacheItems ++ [WireItem.blankLine, WireItem.bodyBytes r.body]) := by
  simp only [emitResponse, send_response_only, foldl_send_header]
  simp [NoCacheHandler.end_headers, send_header, base_end_headers,
    flush_headers, noCacheItems, List.append_assoc]

theorem emitResponseBase_wfile (r : BaseResponse) :
    (emitResponseBase r).wfile =
      WireItem.statusLine r.code r.message ::
        (r.headers.map (fun kv => WireItem.headerLine kv.1 kv.2) ++
          [WireItem.blankLine, WireItem.bodyBytes r.body]) := by
  simp only [emitResponseBase, send_response_only, foldl_send_header]
  simp [base_end_headers, flush_headers, send_header, List.append_assoc]

/-- The header keywords of a computed base response. -/
def headerKeys (r : BaseResponse) : List String :=
  r.headers.map (fun kv => kv.1)

theorem baseResponse_keys (fs : Fs) (req : Request) :
    headerKeys (baseResponse fs req) =
      ["Server", "Date", "Content-type", "Content-Length", "Last-Modified"] ∨
    headerKeys (baseResponse fs req) =
      ["Server", "Date", "Content-type", "Content-Length"] := by
  unfold baseResponse headerKeys
  split
  · split <;> simp [stdHeaders]
  · simp [stdHeaders]

theorem countItem_append (x : WireItem) (l1 l2 : List WireItem) :
    countItem x (l1 ++ l2) = countItem x l1 + countItem x l2 := by
  induction l1 with
  | nil => simp [countItem]
  | cons y rest ih => simp [countItem, ih]; omega

theorem countItem_headerLine_map (hs : List (String × String)) (k v : String)
    (h : k ∉ hs.map (fun kv => kv.1)) :
    countItem (WireItem.headerLine k v)
      (hs.map (fun kv => WireItem.headerLine kv.1 kv.2)) = 0 := by
  induction hs with
  | nil => rfl
  | cons kv rest ih =>
      simp only [List.map_cons, List.mem_cons, not_or] at h
      obtain ⟨h1, h2⟩ := h
      have hne : WireItem.headerLine kv.1 kv.2 ≠ WireItem.headerLine k v := by
        intro he
        injection he with he1 he2
        exact h1 he1.symm
      simp [countItem, hne, ih h2]

theorem countStatusLines_append (l1 l2 : List WireItem) :
    countStatusLines (l1 ++ l2) = countStatusLines l1 + countStatusLines l2 := by
  induction l1 with
  | nil => simp [countStatusLines]
  | cons y rest ih => cases y <;> simp [countStatusLines, ih, Nat.add_assoc]

theorem countStatusLines_map_headers (hs : List (String × String)) :
    countStatusLines (hs.map (fun kv => WireItem.headerLine kv.1 kv.2)) = 0 := by
  induction hs with
  | nil => rfl
  | cons kv rest ih => simp [countStatusLines, ih]

theorem wireStatus_handleRequest (fs : Fs) (req : Request) :
    wireStatus (handleRequest fs req) = some (baseResponse fs req).code := by
  unfold handleRequest wireStatus
  rw [emitResponse_wfile]

theorem countStatusLines_handleRequest (fs : Fs) (req : Request) :
    countStatusLines (handleRequest fs req).wfile = 1 := by
  unfold handleRequest
  rw [emitResponse_wfile]
  simp [countStatusLines, countStatusLines_append, countStatusLines_map_headers,
    noCacheItems]

theorem bodyBytes_mem_handleRequest (fs : Fs) (req : Request) :
    WireItem.bodyBytes (baseResponse fs req).body ∈ (handleRequest fs req).wfile := by
  unfold handleRequest
  rw [emitResponse_wfile]
  simp

theorem baseResponse_get_file (fs : Fs) (req : Request) (mtime contents : String)
    (hm : req.method = "GET")
    (hf : lookupPath fs req.path = some (FsNode.file true mtime contents)) :
    baseResponse fs req =
      { code := 200, message := "OK",
        headers := stdHeaders ++
          [("Content-type", guessContentType req.path),
           ("Content-Length", toString contents.length),
           ("Last-Modified", mtime)],
        body := contents } := by
  simp [baseResponse, hm, hf]

theorem baseResponse_get_missing (fs : Fs) (req : Request)
    (hm : req.method = "GET")
    (hf : lookupPath fs req.path = none) :
    baseResponse fs req =
      { code := 404, message := "Not Found",
        headers := stdHeaders ++
          [("Content-type", "text/html"),
           ("Content-Length", toString (errorBody 404 "Not Found").length)],
        body := errorBody 404 "Not Found" } := by
  simp [baseResponse, hm, hf]

theorem baseResponse_get_unreadable (fs : Fs) (req : Request) (mtime contents : String)
    (hm : req.method = "GET")
    (hf : lookupPath fs req.path = some (FsNode.file false mtime contents)) :
    baseResponse fs req =
      { code := 500, message := "Internal Server Error",
        headers := stdHeaders ++
          [("Content-type", "text/html"),
           ("Content-Length",
            toString (errorBody 500 "Internal Server Error").length)],
        body := errorBody 500 "Internal Server Error" } := by
  simp [baseResponse, hm, hf]

theorem baseResponse_head_missing (fs : Fs) (req : Request)
    (hm : req.method = "HEAD")
    (hf : lookupPath fs req.path = none) :
    baseResponse fs req =
      { code := 404, message := "Not Found",
        headers := stdHeaders ++
          [("Content-type", "text/html"),
           ("Content-Length", toString (errorBody 404 "Not Found").length)],
        body := "" } := by
  simp [baseResponse, hm, hf]

theorem baseResponse_other_method (fs : Fs) (req : Request)
    (hm : ¬(req.method = "GET" ∨ req.method = "HEAD")) :
    (baseResponse fs req).code = 501 := by
  unfold baseResponse
  rw [if_neg hm]

/- Claim theorems. -/

/-- Claim C1: every response the server emits — whatever the status code
(success, redirect, directory listing, not-found, other error) and
whatever the content type — carries on the wire the three header lines
`Cache-Control: no-cache, no-store, must-revalidate`, `Pragma: no-cache`
and `Expires: 0`. -/
theorem claim_header_universality (fs : Fs) (req : Request) :
    WireItem.headerLine "Cache-Control" "no-cache, no-store, must-revalidate"
        ∈ (handleRequest fs req).wfile ∧
    WireItem.headerLine "Pragma" "no-cache" ∈ (handleRequest fs req).wfile ∧
    WireItem.headerLine "Expires" "0" ∈ (handleRequest fs req).wfile := by
  unfold handleRequest
  rw [emitResponse_wfile]
  simp [noCacheItems]

/-- Claim C2: the header-injection step only adds the three no-cache
headers: the status line, every header line the base responder would emit
(in order), and the body bytes appear unchanged on the wire alongside the
three added headers, as the comparison with the un-overridden base
emission shows. -/
theorem claim_header_injection_frame (fs : Fs) (req : Request) :
    (handleRequest fs req).wfile =
      WireItem.statusLine (baseResponse fs req).code (baseResponse fs req).message ::
        ((baseResponse fs req).headers.map (fun kv => WireItem.headerLine kv.1 kv.2) ++
          noCacheItems ++
          [WireItem.blankLine, WireItem.bodyBytes (baseResponse fs req).body]) ∧
    (handleRequestBase fs req).wfile =
      WireItem.statusLine (baseResponse fs req).code (baseResponse fs req).message ::
        ((baseResponse fs req).headers.map (fun kv => WireItem.headerLine kv.1 kv.2) ++
          [WireItem.blankLine, WireItem.bodyBytes (baseResponse fs req).body]) :=
  ⟨emitResponse_wfile (baseResponse fs req),
   emitResponseBase_wfile (baseResponse fs req)⟩

/-- Claim C10: in every response the three no-cache header lines appear
exactly once each, after all header lines emitted by the base responder
and immediately before the blank line that terminates the header
block. -/
theorem claim_headers_once_placement (fs : Fs) (req : Request) :
    (handleRequest fs req).wfile =
      WireItem.statusLine (baseResponse fs req).code (baseResponse fs req).message ::
        ((baseResponse fs req).headers.map (fun kv => WireItem.headerLine kv.1 kv.2) ++
          noCacheItems ++
          [WireItem.blankLine, WireItem.bodyBytes (baseResponse fs req).body]) ∧
    countItem (WireItem.headerLine "Cache-Control" "no-cache, no-store, must-revalidate")
      (handleRequest fs req).wfile = 1 ∧
    countItem (WireItem.headerLine "Pragma" "no-cache")
      (handleRequest fs req).wfile = 1 ∧
    countItem (WireItem.headerLine "Expires" "0")
      (handleRequest fs req).wfile = 1 := by
  have hkeys : "Cache-Control" ∉ headerKeys (baseResponse fs req) ∧
      "Pragma" ∉ headerKeys (baseResponse fs req) ∧
      "Expires" ∉ headerKeys (baseResponse fs req) := by
    rcases baseResponse_keys fs req with h | h <;> rw [h] <;> refine ⟨?_, ?_, ?_⟩ <;> decide
  obtain ⟨hk1, hk2, hk3⟩ := hkeys
  rw [headerKeys] at hk1 hk2 hk3
  refine ⟨emitResponse_wfile (baseResponse fs req), ?_, ?_, ?_⟩ <;>
    · unfold handleRequest
      rw [emitResponse_wfile]
      simp [countItem, countItem_append, noCacheItems,
        countItem_headerLine_map _ _ _ hk1,
        countItem_headerLine_map _ _ _ hk2,
        countItem_headerLine_map _ _ _ hk3]

/-- Claim C3: a GET request whose path resolves to a readable regular
file is answered with status 200 and a body byte-identical to the file's
contents at the time of the request. -/
theorem claim_content_fidelity (fs : Fs) (req : Request) (mtime contents : String)
    (hm : req.method = "GET")
    (hf : lookupPath fs req.path = some (FsNode.file true mtime contents)) :
    wireStatus (handleRequest fs req) = some 200 ∧
    (baseResponse fs req).body = contents ∧
    WireItem.bodyBytes contents ∈ (handleRequest fs req).wfile := by
  have hb := baseResponse_get_file fs req mtime contents hm hf
  refine ⟨?_, ?_, ?_⟩
  · rw [wireStatus_handleRequest, hb]
  · rw [hb]
  · have h := bodyBytes_mem_handleRequest fs req
    rw [hb] at h
    exact h

/-- Witness for claim C3 at a concrete filesystem and request. -/
theorem claim_content_fidelity_witness :
    (Request.mk "GET" "/a.html").method = "GET" ∧
    lookupPath [("/a.html", FsNode.file true "t" "hello")] "/a.html" =
      some (FsNode.file true "t" "hello") ∧
    (wireStatus (handleRequest [("/a.html", FsNode.file true "t" "hello")]
        (Request.mk "GET" "/a.html")) = some 200 ∧
      (baseResponse [("/a.html", FsNode.file true "t" "hello")]
        (Request.mk "GET" "/a.html")).body = "hello" ∧
      WireItem.bodyBytes "hello" ∈
        (handleRequest [("/a.html", FsNode.file true "t" "hello")]
          (Request.mk "GET" "/a.html")).wfile) :=
  ⟨rfl, by decide,
   claim_content_fidelity [("/a.html", FsNode.file true "t" "hello")]
     (Request.mk "GET" "/a.html") "t" "hello" rfl (by decide)⟩

/-- Claim C4 counterexample: a POST request to a path that resolves to
nothing is answered with the base responder's default method rejection
(status 501), not a 404-equivalent status, so the claim fails as stated
for requests that are not GET or HEAD. -/
theorem claim_not_found_counterexample :
    lookupPath ([] : Fs) "/nope" = none ∧
    wireStatus (handleRequest [] (Request.mk "POST" "/nope")) = some 501 ∧
    wireStatus (handleRequest [] (Request.mk "POST" "/nope")) ≠ some 404 := by
  have hm : ¬((Request.mk "POST" "/nope").method = "GET" ∨
      (Request.mk "POST" "/nope").method = "HEAD") := by decide
  have hb : (baseResponse [] (Request.mk "POST" "/nope")).code = 501 := by
    unfold baseResponse
    rw [if_neg hm]
  refine ⟨rfl, ?_, ?_⟩
  · rw [wireStatus_handleRequest, hb]
  · rw [wireStatus_handleRequest, hb]
    decide

/-- Claim C4 (amended): for every request whose path does not resolve to
any file or directory under the document root — a GET request is answered
with a 404 status and a minimal error body; a HEAD request to such a path
receives the same 404 status with no body; a request with any other
method receives the base responder's default method rejection (501)
instead; in every case the response still contains the three no-cache
headers, and the serve loop keeps listening (the process does not
crash). -/
theorem claim_not_found_amended (fs : Fs) (req : Request) (cwd : String)
    (hf : lookupPath fs req.path = none) :
    (req.method = "GET" →
      wireStatus (handleRequest fs req) = some 404 ∧
      WireItem.bodyBytes (errorBody 404 "Not Found") ∈ (handleRequest fs req).wfile) ∧
    (req.method = "HEAD" →
      wireStatus (handleRequest fs req) = some 404 ∧
      (baseResponse fs req).body = "") ∧
    (¬(req.method = "GET" ∨ req.method = "HEAD") →
      wireStatus (handleRequest fs req) = some 501) ∧
    WireItem.headerLine "Cache-Control" "no-cache, no-store, must-revalidate"
        ∈ (handleRequest fs req).wfile ∧
    WireItem.headerLine "Pragma" "no-cache" ∈ (handleRequest fs req).wfile ∧
    WireItem.headerLine "Expires" "0" ∈ (handleRequest fs req).wfile ∧
    ((serveStep (initialServerState cwd) fs req).1).listening = true := by
  refine ⟨?_, ?_, ?_, ?_, ?_, ?_, ?_⟩
  · intro hm
    have hb := baseResponse_get_missing fs req hm hf
    refine ⟨by rw [wireStatus_handleRequest, hb], ?_⟩
    have h := bodyBytes_mem_handleRequest fs req
    rw [hb] at h
    exact h
  · intro hm
    have hb := baseResponse_head_missing fs req hm hf
    exact ⟨by rw [wireStatus_handleRequest, hb], by rw [hb]⟩
  · intro hm
    rw [wireStatus_handleRequest, baseResponse_other_method fs req hm]
  · unfold handleRequest
    rw [emitResponse_wfile]
    simp [noCacheItems]
  · unfold handleRequest
    rw [emitResponse_wfile]
    simp [noCacheItems]
  · unfold handleRequest
    rw [emitResponse_wfile]
    simp [noCacheItems]
  · rfl

/-- Witness for the amended claim C4 at a concrete GET request to a path
that resolves to nothing. -/
theorem claim_not_found_amended_witness :
    lookupPath ([] : Fs) "/nope" = none ∧
    (((Request.mk "GET" "/nope").method = "GET" →
      wireStatus (handleRequest [] (Request.mk "GET" "/nope")) = some 404 ∧
      WireItem.bodyBytes (errorBody 404 "Not Found") ∈
        (handleRequest [] (Request.mk "GET" "/nope")).wfile) ∧
    ((Request.mk "GET" "/nope").method = "HEAD" →
      wireStatus (handleRequest [] (Request.mk "GET" "/nope")) = some 404 ∧
      (baseResponse [] (Request.mk "GET" "/nope")).body = "") ∧
    (¬((Request.mk "GET" "/nope").method = "GET" ∨
        (Request.mk "GET" "/nope").method = "HEAD") →
      wireStatus (handleRequest [] (Request.mk "GET" "/nope")) = some 501) ∧
    WireItem.headerLine "Cache-Control" "no-cache, no-store, must-revalidate"
        ∈ (handleRequest [] (Request.mk "GET" "/nope")).wfile ∧
    WireItem.headerLine "Pragma" "no-cache" ∈
      (handleRequest [] (Request.mk "GET" "/nope")).wfile ∧
    WireItem.headerLine "Expires" "0" ∈
      (handleRequest [] (Request.mk "GET" "/nope")).wfile ∧
    ((serveStep (initialServerState "/srv") [] (Request.mk "GET" "/nope")).1).listening
      = true) :=
  ⟨rfl, claim_not_found_amended [] (Request.mk "GET" "/nope") "/srv" rfl⟩

/-- Claim C5: a GET request for an existing file that cannot be read
(permission denied, or an I/O error while streaming) is answered with a
server-error status 500, and the wire carries exactly one status line:
the response is produced once, with no retry. -/
theorem claim_read_error_server_error (fs : Fs) (req : Request)
    (mtime contents : String)
    (hm : req.method = "GET")
    (hf : lookupPath fs req.path = some (FsNode.file false mtime contents)) :
    wireStatus (handleRequest fs req) = some 500 ∧
    countStatusLines (handleRequest fs req).wfile = 1 := by
  have hb := baseResponse_get_unreadable fs req mtime contents hm hf
  exact ⟨by rw [wireStatus_handleRequest, hb], countStatusLines_handleRequest fs req⟩

/-- Witness for claim C5 at a concrete unreadable file. -/
theorem claim_read_error_server_error_witness :
    (Request.mk "GET" "/secret").method = "GET" ∧
    lookupPath [("/secret", FsNode.file false "t" "x")] "/secret" =
      some (FsNode.file false "t" "x") ∧
    (wireStatus (handleRequest [("/secret", FsNode.file false "t" "x")]
        (Request.mk "GET" "/secret")) = some 500 ∧
      countStatusLines (handleRequest [("/secret", FsNode.file false "t" "x")]
        (Request.mk "GET" "/secret")).wfile = 1) :=
  ⟨rfl, by decide,
   claim_read_error_server_error [("/secret", FsNode.file false "t" "x")]
     (Request.mk "GET" "/secret") "t" "x" rfl (by decide)⟩

/-- Claim C6: a failed bind at startup terminates the process with a
nonzero failure signal, after exactly one bind attempt at the fixed
host and port (no retry, no fallback port); and no per-request handling
ever stops the serve loop from listening. -/
theorem claim_bind_failure_fatal :
    runMain false = [MainEvent.bindAttempt serverHost serverPort,
                     MainEvent.exitedProcess true] ∧
    (∀ b : Bool, countBindAttempts (runMain b) = 1) ∧
    (∀ b : Bool, MainEvent.bindAttempt serverHost serverPort ∈ runMain b) ∧
    (∀ (st : ServerState) (fs : Fs) (req : Request),
      ((serveStep st fs req).1).listening = st.listening) := by
  refine ⟨rfl, ?_, ?_, ?_⟩
  · intro b
    cases b <;> rfl
  · intro b
    cases b <;> simp [runMain]
  · intro st fs req
    rfl

/-- Claim C7: the listener is configured with loopback host 127.0.0.1
and fixed port 3000, the document root is the working directory at
startup, and handling a request never mutates host, port or root. -/
theorem claim_listener_config :
    serverHost = "127.0.0.1" ∧
    isLoopback serverHost = true ∧
    serverPort = 3000 ∧
    (∀ cwd : String, (initialServerState cwd).host = serverHost ∧
      (initialServerState cwd).port = serverPort ∧
      (initialServerState cwd).root = cwd) ∧
    (∀ (st : ServerState) (fs : Fs) (req : Request),
      ((serveStep st fs req).1).host = st.host ∧
      ((serveStep st fs req).1).port = st.port ∧
      ((serveStep st fs req).1).root = st.root) := by
  refine ⟨rfl, ?_, rfl, fun cwd => ⟨rfl, rfl, rfl⟩, fun st fs req => ⟨rfl, rfl, rfl⟩⟩
  decide

/-- Claim C8: on a successful launch the main block prints exactly one
human-readable line, announcing the listening URL, to standard output,
and enters the serve loop right after, without waiting for a request. -/
theorem claim_startup_line :
    runMain true = [MainEvent.bindAttempt serverHost serverPort,
                    MainEvent.printedLine startupLine,
                    MainEvent.enteredServeLoop] ∧
    countPrintedLines (runMain true) = 1 ∧
    startupLine = "Dev server: http://localhost:3000 (no-cache)" :=
  ⟨rfl, rfl, rfl⟩

/-- Claim C9: the server holds no response cache and no per-request
state that influences a later response: a response depends only on the
current filesystem and request, and when a file changes between two
identical GET requests, the first response carries the old contents and
the second carries the new contents. -/
theorem claim_no_caching (st s1 s2 : ServerState) (fs1 fs2 : Fs) (req : Request)
    (m1 c1 m2 c2 : String)
    (hm : req.method = "GET")
    (h1 : lookupPath fs1 req.path = some (FsNode.file true m1 c1))
    (h2 : lookupPath fs2 req.path = some (FsNode.file true m2 c2)) :
    (serveStep s1 fs2 req).2 = (serveStep s2 fs2 req).2 ∧
    WireItem.bodyBytes c1 ∈ ((serveStep st fs1 req).2).wfile ∧
    WireItem.bodyBytes c2 ∈ ((serveStep (serveStep st fs1 req).1 fs2 req).2).wfile := by
  have hb1 := baseResponse_get_file fs1 req m1 c1 hm h1
  have hb2 := baseResponse_get_file fs2 req m2 c2 hm h2
  refine ⟨rfl, ?_, ?_⟩
  · have h := bodyBytes_mem_handleRequest fs1 req
    rw [hb1] at h
    exact h
  · have h := bodyBytes_mem_handleRequest fs2 req
    rw [hb2] at h
    exact h

/-- Witness for claim C9: the file at `/a.html` changes from `old` to
`new` between two identical GET requests; each response reflects the
contents current at its own request. -/
theorem claim_no_caching_witness :
    (Request.mk "GET" "/a.html").method = "GET" ∧
    lookupPath [("/a.html", FsNode.file true "t1" "old")] "/a.html" =
      some (FsNode.file true "t1" "old") ∧
    lookupPath [("/a.html", FsNode.file true "t2" "new")] "/a.html" =
      some (FsNode.file true "t2" "new") ∧
    ((serveStep (initialServerState "/srv")
        [("/a.html", FsNode.file true "t2" "new")] (Request.mk "GET" "/a.html")).2 =
      (serveStep { host := "h", port := 0, root := "r", listening := true, handled := 7 }
        [("/a.html", FsNode.file true "t2" "new")] (Request.mk "GET" "/a.html")).2 ∧
      WireItem.bodyBytes "old" ∈
        ((serveStep (initialServerState "/srv")
          [("/a.html", FsNode.file true "t1" "old")] (Request.mk "GET" "/a.html")).2).wfile ∧
      WireItem.bodyBytes "new" ∈
        ((serveStep (serveStep (initialServerState "/srv")
            [("/a.html", FsNode.file true "t1" "old")] (Request.mk "GET" "/a.html")).1
          [("/a.html", FsNode.file true "t2" "new")] (Request.mk "GET" "/a.html")).2).wfile) :=
  ⟨rfl, by decide, by decide,
   claim_no_caching (initialServerState "/srv") (initialServerState "/srv")
     { host := "h", port := 0, root := "r", listening := true, handled := 7 }
     [("/a.html", FsNode.file true "t1" "old")]
     [("/a.html", FsNode.file true "t2" "new")]
     (Request.mk "GET" "/a.html") "t1" "old" "t2" "new"
     rfl (by decide) (by decide)⟩
